import Mathlib

/-!
Verification of the AISDR Slack-bot webhook relay (`aisdr.py`) and its
OpenTelemetry configuration module (`otel_setup.py`).

The Python source is shallowly embedded: each route handler and helper
becomes a pure Lean function over an explicit state (the `processed_events`
registry, the module-level telemetry globals), and Python dicts holding
HTTP headers become insertion-ordered association lists with
Python-`dict`-style update semantics.
-/

namespace Aisdr

/-- Python truthiness for an optional string (`None` and `""` are falsy).
Models `if event_id:` / `if auth_header:` style guards in the source. -/
def truthy : Option String → Bool
  | none => false
  | some s => s != ""

/-- Python `set.add` on the `processed_events` registry, modelled as a
duplicate-free insertion into a list. -/
def setAdd (reg : List String) (e : String) : List String :=
  if e ∈ reg then reg else reg ++ [e]

/-- The fields of an inbound `/slack/events` JSON payload that
`slack_events` (aisdr.py lines 78-132) actually reads.  `event_type`,
`bot_id`, `subtype`, `text` and `channel` live under the nested `event`
object in the JSON; a missing key is `none`. -/
structure SlackPayload where
  challenge : Option String
  event_id : Option String
  event_type : Option String
  bot_id : Option String
  subtype : Option String
  text : Option String
  channel : Option String
deriving DecidableEq

/-- Which branch of `slack_events` handled the delivery. -/
inductive Classification where
  | handshake
  | duplicate
  | ignored
  | actionable
deriving DecidableEq

/-- The JSON body returned by `slack_events`: either the challenge echo
or the generic acknowledgement body with status ok. -/
inductive SlackResponse where
  | challengeResp (x : String)
  | okResp
deriving DecidableEq

/-- Everything observable about one call to `slack_events`: the branch
taken, the HTTP response body, the `processed_events` registry after the
call, and the argument pair `(user_message, channel)` of the background
thread if one was started. -/
structure EventsResult where
  classification : Classification
  response : SlackResponse
  registry : List String
  dispatch : Option (String × Option String)
deriving DecidableEq

/-- Shallow embedding of `slack_events` (aisdr.py lines 78-132) as a
function of the current `processed_events` registry and the payload.
Branch order follows the source: challenge echo, then the duplicate
check and registry insertion keyed on a truthy `event_id`, then the
three ignore checks, then the actionable branch that spawns the
background thread. -/
def slack_events (registry : List String) (data : SlackPayload) : EventsResult :=
  if data.challenge.isSome then
    ⟨.handshake, .challengeResp (data.challenge.getD ""), registry, none⟩
  else if truthy data.event_id ∧ data.event_id.getD "" ∈ registry then
    ⟨.duplicate, .okResp, registry, none⟩
  else
    let registry1 :=
      if truthy data.event_id then setAdd registry (data.event_id.getD "") else registry
    if ¬(data.event_type = some "message" ∨ data.event_type = some "app_mention") then
      ⟨.ignored, .okResp, registry1, none⟩
    else if truthy data.bot_id then
      ⟨.ignored, .okResp, registry1, none⟩
    else if truthy data.subtype then
      ⟨.ignored, .okResp, registry1, none⟩
    else
      ⟨.actionable, .okResp, registry1, some (data.text.getD "", data.channel)⟩

/-- Sequential processing of a finite sequence of deliveries, threading
the `processed_events` registry from one call to the next. -/
def runEvents (registry : List String) : List SlackPayload → List EventsResult
  | [] => []
  | p :: ps =>
    let r := slack_events registry p
    r :: runEvents r.registry ps

/-- A payload that passes all three ignore checks (actionable event type,
not bot-originated, no subtype). -/
def isActionablePayload (data : SlackPayload) : Prop :=
  (data.event_type = some "message" ∨ data.event_type = some "app_mention") ∧
    truthy data.bot_id = false ∧ truthy data.subtype = false

end Aisdr

namespace Aisdr

theorem slack_events_duplicate (reg : List String) (data : SlackPayload) (e : String)
    (h1 : data.challenge = none) (h2 : data.event_id = some e) (h3 : e ≠ "")
    (h4 : e ∈ reg) :
    slack_events reg data = ⟨.duplicate, .okResp, reg, none⟩ := by
  simp [slack_events, h1, h2, truthy, h3, h4]

theorem mem_registry_after (reg : List String) (data : SlackPayload) (e : String)
    (h1 : data.challenge = none) (h2 : data.event_id = some e) (h3 : e ≠ "") :
    e ∈ (slack_events reg data).registry := by
  by_cases h4 : e ∈ reg
  · rw [slack_events_duplicate reg data e h1 h2 h3 h4]
    exact h4
  · obtain ⟨c, eid, et, b, s, t, ch⟩ := data
    simp only [SlackPayload.challenge] at h1
    simp only [SlackPayload.event_id] at h2
    subst h1 h2
    simp only [slack_events, truthy]
    split_ifs <;> simp_all [setAdd, h3, h4]

theorem runEvents_all_duplicate (e : String) (h3 : e ≠ "") :
    ∀ (ps : List SlackPayload) (reg : List String), e ∈ reg →
      (∀ p ∈ ps, p.challenge = none ∧ p.event_id = some e) →
      ∀ r ∈ runEvents reg ps, r = ⟨.duplicate, .okResp, reg, none⟩ := by
  intro ps
  induction ps with
  | nil => intro reg _ _ r hr; simp [runEvents] at hr
  | cons p ps ih =>
    intro reg hmem hall r hr
    have hp := hall p (by simp)
    have hstep : slack_events reg p = ⟨.duplicate, .okResp, reg, none⟩ :=
      slack_events_duplicate reg p e hp.1 hp.2 h3 hmem
    simp only [runEvents, hstep] at hr
    rw [List.mem_cons] at hr
    rcases hr with hr | hr
    · exact hr
    · exact ih reg hmem (fun q hq => hall q (by simp [hq])) r hr

end Aisdr

namespace Aisdr

theorem slack_events_actionable_no_id (reg : List String) (data : SlackPayload)
    (h1 : data.challenge = none) (h2 : data.event_id = none)
    (ha : isActionablePayload data) :
    slack_events reg data =
      ⟨.actionable, .okResp, reg, some (data.text.getD "", data.channel)⟩ := by
  obtain ⟨c, eid, et, b, s, t, ch⟩ := data
  simp only [SlackPayload.challenge] at h1
  simp only [SlackPayload.event_id] at h2
  obtain ⟨hty, hb, hs⟩ := ha
  simp only [SlackPayload.bot_id, SlackPayload.subtype, truthy] at hb hs
  subst h1 h2
  simp only [slack_events, truthy]
  split_ifs <;> simp_all

/-- C6: a payload carrying a challenge field with value X is answered by
echoing X verbatim; no background dispatch is started and the
seen-event registry is left unchanged, even when the payload also
carries an event identifier (the challenge branch runs first). -/
theorem C6_handshake_echo (reg : List String) (data : SlackPayload) (X : String)
    (h : data.challenge = some X) :
    slack_events reg data = ⟨.handshake, .challengeResp X, reg, none⟩ := by
  simp [slack_events, h]

theorem C6_handshake_echo_witness :
    slack_events ["E0"]
        ⟨some "tok42", some "E9", some "message", none, none, some "hi", some "C1"⟩ =
      ⟨.handshake, .challengeResp "tok42", ["E0"], none⟩ :=
  C6_handshake_echo ["E0"] _ "tok42" rfl

/-- C2: a delivery with a fresh non-empty event identifier has that
identifier added to the registry before the ignore checks run (the
conclusion holds for every such payload, including ones the ignore
checks reject), so any later non-handshake redelivery with the same
identifier is classified Duplicate, not Ignored. -/
theorem C2_register_before_ignore_checks (reg : List String) (p q : SlackPayload)
    (e : String) (hp1 : p.challenge = none) (hp2 : p.event_id = some e)
    (he : e ≠ "") (_hfresh : e ∉ reg)
    (hq1 : q.challenge = none) (hq2 : q.event_id = some e) :
    e ∈ (slack_events reg p).registry ∧
      slack_events (slack_events reg p).registry q =
        ⟨.duplicate, .okResp, (slack_events reg p).registry, none⟩ := by
  have hm := mem_registry_after reg p e hp1 hp2 he
  exact ⟨hm, slack_events_duplicate _ q e hq1 hq2 he hm⟩

theorem C2_register_before_ignore_checks_witness :
    "Ev1" ∈ (slack_events []
        ⟨none, some "Ev1", some "reaction_added", none, none, none, none⟩).registry ∧
      slack_events
          (slack_events []
            ⟨none, some "Ev1", some "reaction_added", none, none, none, none⟩).registry
          ⟨none, some "Ev1", some "reaction_added", none, none, none, none⟩ =
        ⟨.duplicate, .okResp,
          (slack_events []
            ⟨none, some "Ev1", some "reaction_added", none, none, none, none⟩).registry,
          none⟩ :=
  C2_register_before_ignore_checks [] _ _ "Ev1" rfl rfl (by decide) (by decide) rfl rfl

/-- C1 (counterexample): the claim quantifies over all deliveries
carrying the same non-empty event identifier, but a handshake payload
that also carries an event identifier is answered by the challenge
branch before the dedup logic runs and never registers its identifier.
Here the first delivery carries challenge "ch" and identifier "E1", so
the second (subsequent) delivery with identifier "E1" is classified
Actionable and starts a background dispatch, not Duplicate. -/
theorem C1_counterexample :
    (runEvents []
        [⟨some "ch", some "E1", none, none, none, none, none⟩,
         ⟨none, some "E1", some "message", none, none, some "hi", some "C"⟩]).map
        EventsResult.classification = [.handshake, .actionable] ∧
      (slack_events
          (slack_events [] ⟨some "ch", some "E1", none, none, none, none, none⟩).registry
          ⟨none, some "E1", some "message", none, none, some "hi", some "C"⟩).dispatch =
        some ("hi", some "C") := by
  decide

/-- C1 (amended): for every finite sequence of non-handshake deliveries
carrying the same non-empty event identifier, every delivery after the
first is classified Duplicate, is answered with the generic
acknowledgement, starts no background dispatch, and leaves the
seen-event registry unchanged (so only the first such delivery can be
classified Actionable or Ignored). -/
theorem C1_amended_dedup (reg : List String) (e : String) (he : e ≠ "")
    (p0 : SlackPayload) (ps : List SlackPayload)
    (hp0 : p0.challenge = none ∧ p0.event_id = some e)
    (hps : ∀ p ∈ ps, p.challenge = none ∧ p.event_id = some e) :
    ∀ r ∈ runEvents (slack_events reg p0).registry ps,
      r.classification = .duplicate ∧ r.response = .okResp ∧ r.dispatch = none ∧
        r.registry = (slack_events reg p0).registry := by
  intro r hr
  have hm := mem_registry_after reg p0 e hp0.1 hp0.2 he
  have hall := runEvents_all_duplicate e he ps (slack_events reg p0).registry hm hps r hr
  rw [hall]
  exact ⟨rfl, rfl, rfl, rfl⟩

theorem C1_amended_dedup_witness :
    (slack_events
        (slack_events [] ⟨none, some "E1", some "reaction_added", none, none, none, none⟩).registry
        ⟨none, some "E1", some "message", none, none, some "hi", some "C"⟩).classification =
      Classification.duplicate ∧
    (slack_events
        (slack_events [] ⟨none, some "E1", some "reaction_added", none, none, none, none⟩).registry
        ⟨none, some "E1", some "message", none, none, some "hi", some "C"⟩).dispatch = none := by
  have h := C1_amended_dedup [] "E1" (by decide)
    ⟨none, some "E1", some "reaction_added", none, none, none, none⟩
    [⟨none, some "E1", some "message", none, none, some "hi", some "C"⟩]
    ⟨rfl, rfl⟩ (by decide)
  have hb := h (slack_events
      (slack_events [] ⟨none, some "E1", some "reaction_added", none, none, none, none⟩).registry
      ⟨none, some "E1", some "message", none, none, some "hi", some "C"⟩)
    (by simp [runEvents])
  exact ⟨hb.1, hb.2.2.1⟩

/-- C10: a delivery without a top-level event identifier never touches
the seen-event registry (the result registry equals the input registry,
and classification, response and dispatch are independent of the
registry contents), is never classified Duplicate, and repeated
identical identifier-less actionable deliveries each start their own
background dispatch. -/
theorem slack_events_no_id (reg : List String) (data : SlackPayload)
    (h1 : data.challenge = none) (h2 : data.event_id = none) :
    slack_events reg data =
      if ¬(data.event_type = some "message" ∨ data.event_type = some "app_mention") then
        ⟨.ignored, .okResp, reg, none⟩
      else if truthy data.bot_id then ⟨.ignored, .okResp, reg, none⟩
      else if truthy data.subtype then ⟨.ignored, .okResp, reg, none⟩
      else ⟨.actionable, .okResp, reg, some (data.text.getD "", data.channel)⟩ := by
  obtain ⟨c, eid, et, b, s, t, ch⟩ := data
  simp only [SlackPayload.challenge] at h1
  simp only [SlackPayload.event_id] at h2
  subst h1 h2
  simp [slack_events, truthy]

theorem C10_no_id_frame (reg reg2 : List String) (data : SlackPayload) (n : Nat)
    (h1 : data.challenge = none) (h2 : data.event_id = none) :
    (slack_events reg data).registry = reg ∧
    (slack_events reg data).classification ≠ .duplicate ∧
    (slack_events reg data).classification = (slack_events reg2 data).classification ∧
    (slack_events reg data).response = (slack_events reg2 data).response ∧
    (slack_events reg data).dispatch = (slack_events reg2 data).dispatch ∧
    (isActionablePayload data →
      ∀ r ∈ runEvents reg (List.replicate n data), r.dispatch.isSome = true) := by
  have hA := slack_events_no_id reg data h1 h2
  have hB := slack_events_no_id reg2 data h1 h2
  refine ⟨?_, ?_, ?_, ?_, ?_, ?_⟩
  · rw [hA]; split_ifs <;> rfl
  · rw [hA]; split_ifs <;> simp
  · rw [hA, hB]; split_ifs <;> rfl
  · rw [hA, hB]; split_ifs <;> rfl
  · rw [hA, hB]; split_ifs <;> rfl
  · intro ha
    clear hA hB
    induction n generalizing reg with
    | zero => intro r hr; simp [runEvents] at hr
    | succ n ih =>
      intro r hr
      have hstep := slack_events_actionable_no_id reg data h1 h2 ha
      simp only [List.replicate_succ, runEvents, hstep] at hr
      rw [List.mem_cons] at hr
      rcases hr with hr | hr
      · rw [hr]
        rfl
      · exact ih reg r hr

theorem C10_no_id_frame_witness :
    (slack_events ["Z"] ⟨none, none, some "message", none, none, some "m", some "C"⟩).registry =
        ["Z"] ∧
      (slack_events ["Z"]
          ⟨none, none, some "message", none, none, some "m", some "C"⟩).classification ≠
        Classification.duplicate := by
  have h := C10_no_id_frame ["Z"] []
    ⟨none, none, some "message", none, none, some "m", some "C"⟩ 2 rfl rfl
  exact ⟨h.1, h.2.1⟩

end Aisdr


namespace Aisdr

/-- Python whitespace as used by `str.strip()` with no argument. -/
def isPySpace (c : Char) : Bool :=
  c == ' ' || c == '\t' || c == '\n' || c == '\r' || c == '\x0b' || c == '\x0c'

/-- Drop leading Python whitespace from a character list. -/
def dropPySpace : List Char → List Char
  | [] => []
  | c :: rest => if isPySpace c then dropPySpace rest else c :: rest

/-- Python `str.strip()` on a character list: drop leading and trailing
whitespace. -/
def pyStrip (l : List Char) : List Char :=
  ((dropPySpace ((dropPySpace l).reverse)).reverse)

/-- Python `str.strip()` on a string. -/
def pyStripStr (s : String) : String :=
  ⟨pyStrip s.data⟩

/-- Helper for `pySplit`: scan the character list left to right, cutting
at each non-overlapping occurrence of the (non-empty) separator.  The
fuel argument makes the recursion structural; `fuel ≥ length + 1` is
always enough since every step consumes at least one character. -/
def pySplitGo (sep : List Char) : Nat → List Char → List Char → List (List Char)
  | _, [], acc => [acc.reverse]
  | 0, l, acc => [acc.reverse ++ l]
  | fuel + 1, c :: rest, acc =>
    if sep.isPrefixOf (c :: rest) then
      acc.reverse :: pySplitGo sep fuel (rest.drop (sep.length - 1)) []
    else
      pySplitGo sep fuel rest (c :: acc)

/-- Python `str.split(sep)` with a non-empty separator: all
non-overlapping occurrences, left to right, keeping empty pieces. -/
def pySplit (sep : String) (s : String) : List String :=
  if sep.data = [] then [s]
  else (pySplitGo sep.data (s.data.length + 1) s.data []).map (fun l => ⟨l⟩)

/-- Python `sep.join(parts)`, used to reconstruct the value part of a
`key=value` option split on its first `=`. -/
def pyJoin (sep : String) : List String → String
  | [] => ""
  | [x] => x
  | x :: y :: xs => x ++ sep ++ pyJoin sep (y :: xs)

end Aisdr

namespace Aisdr

/-- The synchronous JSON body returned by `slash_aisdr` together with the
argument pair of the background thread it spawns before returning. -/
structure SlashResult where
  response_type : String
  text : String
  background : Option (String × Option String)
deriving DecidableEq

/-- Shallow embedding of `slash_aisdr` (aisdr.py lines 134-157): reads
the `text` and `response_url` form fields, builds the in-channel
acknowledgement whose backticked portion is the slash command `/aisdr `
followed by the raw text, spawns `background_slash_processing` on
`(text, response_url)`, and returns the acknowledgement immediately. -/
def slash_aisdr (text : String) (response_url : Option String) : SlashResult :=
  { response_type := "in_channel",
    text := "Received: `/aisdr " ++ text ++ "`\n\nProcessing your request, please wait...",
    background := some (text, response_url) }

/-- The parts of the completion endpoint response that
`process_user_input` (aisdr.py lines 233-250) inspects: an optional
error envelope and an optional choices array, each choice reduced to its
message content string. -/
structure CompletionResponse where
  error : Option String
  choices : Option (List String)
deriving DecidableEq

/-- Shallow embedding of the response handling in `process_user_input`
(aisdr.py lines 233-250).  Returns the user-facing text together with
the list of labels of `processing_errors_counter` increments performed.
All three branches return normally (nothing is raised in them; the
`except` clause of the source only covers exceptions raised before this
handling, by the transport call itself). -/
def handle_completion_response (resp : CompletionResponse) : String × List String :=
  match resp.error with
  | some _ => ("Sorry, I couldn\x27t process your request at the moment.", ["openai_error"])
  | none =>
    match resp.choices with
    | none => ("Sorry, I couldn\x27t generate a response right now.", ["no_choices"])
    | some [] => ("Sorry, I couldn\x27t generate a response right now.", ["no_choices"])
    | some (c :: _) => (pyStripStr c, [])

/-- The prospect fields parsed out of the raw text by
`process_user_input` (aisdr.py lines 164-176). -/
structure ProspectFields where
  name : String
  position : String
  competitorTool : String
deriving DecidableEq

/-- Value of a labelled segment: Python `part.split(lbl)[1].strip()`,
the text between the first and second occurrence of the label. -/
def labelVal (part lbl : String) : String :=
  pyStripStr ((pySplit lbl part).getD 1 "")

/-- One iteration of the label-matching loop in `process_user_input`
(aisdr.py lines 170-176).  Python tests `lbl in part` (substring
containment, equivalent to the split producing at least two pieces) in
an if/elif chain, so at most one label is matched per segment. -/
def extractStep (acc : ProspectFields) (part : String) : ProspectFields :=
  if 2 ≤ (pySplit "Name:" part).length then
    { acc with name := labelVal part "Name:" }
  else if 2 ≤ (pySplit "Position:" part).length then
    { acc with position := labelVal part "Position:" }
  else if 2 ≤ (pySplit "Competitor:" part).length then
    { acc with competitorTool := labelVal part "Competitor:" }
  else acc

/-- Field extraction of `process_user_input` (aisdr.py lines 164-176):
split the raw text on commas, strip each part, then scan left to right
updating the defaulted fields. -/
def extractFields (user_message : String) : ProspectFields :=
  ((pySplit "," user_message).map pyStripStr).foldl extractStep
    ⟨"Jack", "CTO", "Datadog"⟩

/-- The extraction step as the specification describes it: each segment
is matched against a literal label-colon position at the START of the
segment, the value being the rest of the segment.  Written from the
claim text only, for comparison with `extractStep` above. -/
def specExtractStep (acc : ProspectFields) (part : String) : ProspectFields :=
  if part.data.take 5 = "Name:".data then
    { acc with name := pyStripStr ⟨part.data.drop 5⟩ }
  else if part.data.take 9 = "Position:".data then
    { acc with position := pyStripStr ⟨part.data.drop 9⟩ }
  else if part.data.take 11 = "Competitor:".data then
    { acc with competitorTool := pyStripStr ⟨part.data.drop 11⟩ }
  else acc

/-- Field extraction as the specification's words describe it (split on
commas, strip, then match each segment against a label at its start). -/
def specExtractFields (user_message : String) : ProspectFields :=
  ((pySplit "," user_message).map pyStripStr).foldl specExtractStep
    ⟨"Jack", "CTO", "Datadog"⟩

end Aisdr

namespace Aisdr

/-- C9 (counterexample): for the submitted raw text "hello" the
backticked portion of the synchronous slash-command acknowledgement is
"/aisdr hello", not the raw text "hello" as the claim states: the
handler interpolates the text into an f-string that prepends the
command name. -/
theorem C9_counterexample :
    (slash_aisdr "hello" (some "https://cb")).text =
        "Received: `/aisdr hello`\n\nProcessing your request, please wait..." ∧
      (slash_aisdr "hello" (some "https://cb")).text ≠
        "Received: `hello`\n\nProcessing your request, please wait..." := by
  exact ⟨rfl, by decide⟩

/-- C9 (amended): for every form-encoded delivery with fields text and
response_url, the synchronous response is the in-channel JSON body whose
backticked portion is the command echo `/aisdr ` followed by the raw
text as submitted, and the background unit is spawned on
(text, response_url) while the response is returned without waiting for
it. -/
theorem C9_amended_slash_ack (text : String) (response_url : Option String) :
    (slash_aisdr text response_url).response_type = "in_channel" ∧
      (slash_aisdr text response_url).text =
        "Received: `/aisdr " ++ text ++ "`\n\nProcessing your request, please wait..." ∧
      (slash_aisdr text response_url).background = some (text, response_url) :=
  ⟨rfl, rfl, rfl⟩

/-- C3 (counterexample): the two failure kinds do not yield a single
fixed apology string.  An error envelope yields one apology text while
an empty choice list yields a different one, and the two strings differ;
the failure kind is therefore visible in the user-facing text, not only
in the error-counter label. -/
theorem C3_counterexample :
    (handle_completion_response ⟨some "boom", none⟩).1 ≠
        (handle_completion_response ⟨none, some []⟩).1 ∧
      (handle_completion_response ⟨some "boom", none⟩).2 = ["openai_error"] ∧
      (handle_completion_response ⟨none, some []⟩).2 = ["no_choices"] := by
  exact ⟨by decide, rfl, rfl⟩

/-- C3 (amended): whenever the completion call returns an error envelope
or a response with no choices, process_user_input returns a fixed
user-facing apology string for that failure kind (the two kinds have two
distinct fixed strings), increments the processing-errors counter
exactly once (with a label distinguishing the kind), and returns rather
than raising to its caller. -/
theorem C3_amended_failure_handling (resp : CompletionResponse)
    (h : resp.error.isSome ∨ resp.choices = none ∨ resp.choices = some []) :
    (resp.error.isSome →
        handle_completion_response resp =
          ("Sorry, I couldn\x27t process your request at the moment.", ["openai_error"])) ∧
      (resp.error = none →
        handle_completion_response resp =
          ("Sorry, I couldn\x27t generate a response right now.", ["no_choices"])) ∧
      (handle_completion_response resp).2.length = 1 := by
  rcases resp with ⟨err, ch⟩
  cases err with
  | some e => exact ⟨fun _ => rfl, fun hn => by simp at hn, rfl⟩
  | none =>
    have hch : ch = none ∨ ch = some [] := by
      rcases h with h | h | h
      · simp at h
      · exact Or.inl h
      · exact Or.inr h
    rcases hch with hch | hch <;> subst hch
    · exact ⟨fun hs => by simp at hs, fun _ => rfl, rfl⟩
    · exact ⟨fun hs => by simp at hs, fun _ => rfl, rfl⟩

theorem C3_amended_failure_handling_witness :
    handle_completion_response ⟨some "boom", none⟩ =
        ("Sorry, I couldn\x27t process your request at the moment.", ["openai_error"]) ∧
      (handle_completion_response ⟨none, some []⟩).2.length = 1 := by
  have h1 := C3_amended_failure_handling ⟨some "boom", none⟩ (Or.inl (by decide))
  have h2 := C3_amended_failure_handling ⟨none, some []⟩ (Or.inr (Or.inr rfl))
  exact ⟨h1.1 (by decide), h2.2.2⟩

/-- C7 (counterexample): field extraction does not match each segment
against a label at the START of the segment; Python tests substring
containment.  On the raw text "My Name: Ada" the segment does not start
with "Name:" yet the code extracts name "Ada", while the
start-of-segment reading of the claim leaves the default "Jack". -/
theorem C7_counterexample :
    extractFields "My Name: Ada" = ⟨"Ada", "CTO", "Datadog"⟩ ∧
      specExtractFields "My Name: Ada" = ⟨"Jack", "CTO", "Datadog"⟩ ∧
      extractFields "My Name: Ada" ≠ specExtractFields "My Name: Ada" := by
  exact ⟨by decide, by decide, by decide⟩

/-- C7 (amended): field extraction splits the raw text on commas, strips
each segment, and matches each segment by substring CONTAINMENT of a
label marker (the value being the text between its first and second
occurrence, stripped), with at most one label matched per segment and
later occurrences of the same label overwriting earlier ones; the raw
text "Name: Ada, Position: Founder, Competitor: Rival" yields name
"Ada", position "Founder", competitorTool "Rival", and raw text with no
recognized labels yields the defaults Jack / CTO / Datadog. -/
theorem C7_amended_extraction :
    extractFields "Name: Ada, Position: Founder, Competitor: Rival" =
        ⟨"Ada", "Founder", "Rival"⟩ ∧
      extractFields "please write a cold email" = ⟨"Jack", "CTO", "Datadog"⟩ ∧
      (∀ acc part, 2 ≤ (pySplit "Name:" part).length →
        (extractStep acc part).name = labelVal part "Name:" ∧
          (extractStep acc part).position = acc.position ∧
          (extractStep acc part).competitorTool = acc.competitorTool) ∧
      extractFields "Name: A, Name: B" = ⟨"B", "CTO", "Datadog"⟩ := by
  refine ⟨by decide, by decide, ?_, by decide⟩
  intro acc part h
  rw [extractStep, if_pos h]
  exact ⟨rfl, rfl, rfl⟩

theorem C7_amended_extraction_witness :
    (extractStep ⟨"a", "b", "c"⟩ "Name: Q").name = "Q" ∧
      (extractStep ⟨"a", "b", "c"⟩ "Name: Q").position = "b" := by
  have h := C7_amended_extraction.2.2.1 ⟨"a", "b", "c"⟩ "Name: Q" (by decide)
  have h1 : labelVal "Name: Q" "Name:" = "Q" := by decide
  exact ⟨h.1.trans h1, h.2.1⟩

end Aisdr

namespace Otel

open Aisdr (truthy pyStrip pyStripStr pySplit pyJoin)

/-- Characters that `urllib.parse.quote` never escapes (the unreserved
set: ASCII letters and digits plus `_.-~`).  The source calls
`quote(value, safe='')`, so even `/` is escaped. -/
def isUnreservedChar (c : Char) : Bool :=
  c.isAlphanum || c == '_' || c == '.' || c == '-' || c == '~'

/-- Uppercase hexadecimal digit for a value below 16, as `quote` emits. -/
def upperHexDigit (n : Nat) : Char :=
  if n < 10 then Char.ofNat (48 + n) else Char.ofNat (55 + n)

/-- Percent-encoding of a single character: kept verbatim when
unreserved, otherwise `%XX` with uppercase hex digits.  Models
`urllib.parse.quote(·, safe='')` at the codepoint level, faithful for
ASCII input (the multi-byte UTF-8 byte expansion of codepoints above
127 is not modelled; every header value in this development is ASCII). -/
def quoteChar (c : Char) : List Char :=
  if isUnreservedChar c then [c]
  else ['%', upperHexDigit (c.toNat / 16 % 16), upperHexDigit (c.toNat % 16)]

/-- `urllib.parse.quote(s, safe='')` over ASCII strings. -/
def pyQuote (s : String) : String :=
  ⟨(s.data.map quoteChar).flatten⟩

/-- Hex digits accepted by `urllib.parse.unquote` (both cases). -/
def isHexDigitChar (c : Char) : Bool :=
  c.isDigit || (65 ≤ c.toNat && c.toNat ≤ 70) || (97 ≤ c.toNat && c.toNat ≤ 102)

/-- Numeric value of a hex digit character (garbage below a non-digit
below code 65, but only ever applied under `isHexDigitChar`). -/
def hexVal (c : Char) : Nat :=
  if c.isDigit then c.toNat - 48
  else if c.toNat ≤ 70 then c.toNat - 55
  else c.toNat - 87

/-- `urllib.parse.unquote` over ASCII strings: each valid `%XX` escape
becomes the character with code `XX`; invalid escapes are kept
verbatim, as CPython does.  The fuel argument makes the recursion
structural; `fuel ≥ length` is always enough since every step consumes
at least one character. -/
def unquoteGo : Nat → List Char → List Char
  | _, [] => []
  | 0, l => l
  | fuel + 1, c :: rest =>
    if c == '%' then
      match rest with
      | a :: b :: rest2 =>
        if isHexDigitChar a && isHexDigitChar b then
          Char.ofNat (16 * hexVal a + hexVal b) :: unquoteGo fuel rest2
        else '%' :: unquoteGo fuel rest
      | _ => '%' :: unquoteGo fuel rest
    else c :: unquoteGo fuel rest

/-- `urllib.parse.unquote` on a string. -/
def pyUnquote (s : String) : String :=
  ⟨unquoteGo s.data.length s.data⟩

/-- One step of Python `str.title()`: a cased (alphabetic) character is
uppercased when it follows a non-cased character and lowercased
otherwise. -/
def pyTitleGo : Bool → List Char → List Char
  | _, [] => []
  | prevCased, c :: rest =>
    if c.isAlpha then
      (if prevCased then c.toLower else c.toUpper) :: pyTitleGo true rest
    else
      c :: pyTitleGo false rest

/-- Python `str.title()` over ASCII strings, used by the source to
case-normalize the auth-header key (`key.strip().title()`). -/
def pyTitle (s : String) : String :=
  ⟨pyTitleGo false s.data⟩

/-- Python dict assignment `d[k] = v` on an insertion-ordered
association list with unique keys: update in place when the key exists,
append otherwise. -/
def dictSet : List (String × String) → String → String → List (String × String)
  | [], k, v => [(k, v)]
  | p :: rest, k, v =>
    if p.1 == k then (k, v) :: rest else p :: dictSet rest k v

/-- Python dict lookup `d.get(k)`. -/
def dictGet : List (String × String) → String → Option String
  | [], _ => none
  | p :: rest, k => if p.1 == k then some p.2 else dictGet rest k

/-- Python `d.update(kvs)`: assign every pair in order. -/
def dictUpdate (l : List (String × String)) (kvs : List (String × String)) :
    List (String × String) :=
  kvs.foldl (fun acc kv => dictSet acc kv.1 kv.2) l

/-- The `OTEL_EXPORTER_OTLP_HEADERS` environment variable as
`get_otlp_headers` consumes it, abstracting over `json.loads`: `unset`
covers an unset or empty (falsy) variable, `invalid` a truthy string
that fails to parse as JSON (warning logged, treated as empty), and
`valid hs` a JSON object with pairs `hs` in order. -/
inductive HeadersJsonEnv where
  | unset
  | invalid
  | valid (hs : List (String × String))
deriving DecidableEq

/-- The three environment variables read by `get_otlp_headers`
(otel_setup.py lines 52-105). -/
structure OtelEnv where
  headers_json : HeadersJsonEnv
  auth_header : Option String
  observe_token : Option String
deriving DecidableEq

/-- Everything observable about one call to `get_otlp_headers`: the
returned header dict (handed verbatim to the OTLP exporters by
`setup_tracing` / `setup_metrics` / `setup_logging`), the value written
back into `OTEL_EXPORTER_OTLP_HEADERS` if any, and the three diagnostic
log events of the function. -/
structure HeaderResolution where
  headers : List (String × String)
  envExposed : Option String
  overrideNote : Bool
  formatWarning : Bool
  jsonWarning : Bool
deriving DecidableEq

/-- Key of the `OTEL_EXPORTER_OTLP_AUTH_HEADER` option:
`key.strip().title()`. -/
def authKey (k0 : String) : String :=
  pyTitle (pyStripStr k0)

/-- Value of the `OTEL_EXPORTER_OTLP_AUTH_HEADER` option: the text
after the first `=`, stripped, then percent-decoded when it contains a
`%` marker. -/
def authValue (v0 : String) (vrest : List String) : String :=
  let value0 := pyStripStr (pyJoin "=" (v0 :: vrest))
  if value0.data.contains '%' then pyUnquote value0 else value0

/-- Shallow embedding of `get_otlp_headers` (otel_setup.py lines
52-105): merge the bulk JSON headers, then apply the `key=value`
auth-header option (decoding its value and re-exposing the encoded form
through the bulk env var), fall back to a placeholder bearer token when
nothing is set, apply the `OBSERVE_INGEST_TOKEN` override (noting a
conflict), and finally set the target-package routing header. -/
def get_otlp_headers (env : OtelEnv) (package : String) : HeaderResolution :=
  let baseH : List (String × String) :=
    match env.headers_json with
    | .unset => []
    | .invalid => []
    | .valid hs => dictUpdate [] hs
  let jsonW : Bool := match env.headers_json with | .invalid => true | _ => false
  let authStep : List (String × String) × Option String × Bool :=
    match env.auth_header with
    | some ah =>
      if ah != "" then
        match pySplit "=" ah with
        | k0 :: v0 :: vrest =>
          let key := authKey k0
          let value := authValue v0 vrest
          (dictSet baseH key value, some (key ++ "=" ++ pyQuote value), false)
        | _ => (baseH, none, true)
      else (baseH, none, false)
    | none => (baseH, none, false)
  let h2 :=
    if authStep.1 = [] then [("Authorization", "Bearer <YOUR_INGEST_TOKEN>")]
    else authStep.1
  let obsStep : List (String × String) × Bool :=
    match env.observe_token with
    | some tok =>
      if tok != "" then
        let conflict : Bool :=
          match dictGet h2 "Authorization" with
          | some v => v != "Bearer " ++ tok
          | none => false
        (dictSet h2 "Authorization" ("Bearer " ++ tok), conflict)
      else (h2, false)
    | none => (h2, false)
  let final := dictSet obsStep.1 "x-observe-target-package" package
  ⟨final, authStep.2.1, obsStep.2, authStep.2.2, jsonW⟩

end Otel

namespace Otel

theorem dictGet_dictSet_self (l : List (String × String)) (k v : String) :
    dictGet (dictSet l k v) k = some v := by
  induction l with
  | nil => simp [dictSet, dictGet]
  | cons p rest ih =>
    by_cases h : (p.1 == k) = true <;> simp [dictSet, dictGet, h, ih]

theorem dictGet_dictSet_other (l : List (String × String)) (k k2 v : String)
    (h : k2 ≠ k) :
    dictGet (dictSet l k v) k2 = dictGet l k2 := by
  have hk : (k == k2) = false := by simp [Ne.symm h]
  induction l with
  | nil => simp [dictSet, dictGet, hk]
  | cons p rest ih =>
    by_cases hp : (p.1 == k) = true
    · have hpk : p.1 = k := by simpa using hp
      simp only [dictSet, hp, if_true]
      simp [dictGet, hk, hpk]
    · have hpf : (p.1 == k) = false := by simpa using hp
      simp only [dictSet, hpf, Bool.false_eq_true, if_false]
      simp [dictGet, ih]

theorem dictSet_ne_nil (l : List (String × String)) (k v : String) :
    dictSet l k v ≠ [] := by
  cases l with
  | nil => simp [dictSet]
  | cons p rest => by_cases h : (p.1 == k) = true <;> simp [dictSet, h]

theorem hexDigit_valid : ∀ n < 16, isHexDigitChar (upperHexDigit n) = true := by
  decide

set_option maxRecDepth 4096 in
theorem hexDigit_decode : ∀ n < 256,
    16 * hexVal (upperHexDigit (n / 16 % 16)) + hexVal (upperHexDigit (n % 16)) = n := by
  decide

theorem unquoteGo_quote_list : ∀ l : List Char, (∀ c ∈ l, c.toNat < 128) →
    ∀ fuel, (l.map quoteChar).flatten.length ≤ fuel →
    unquoteGo fuel ((l.map quoteChar).flatten) = l := by
  intro l
  induction l with
  | nil =>
    intro _ fuel _
    cases fuel <;> rfl
  | cons c rest ih =>
    intro h fuel hf
    have hc : c.toNat < 128 := h c (by simp)
    have hrest : ∀ x ∈ rest, x.toNat < 128 := fun x hx => h x (by simp [hx])
    rw [List.map_cons, List.flatten_cons] at hf ⊢
    by_cases hu : isUnreservedChar c = true
    · have hq : quoteChar c = [c] := by simp [quoteChar, hu]
      rw [hq] at hf ⊢
      have hne : c ≠ '%' := by
        intro he
        rw [he] at hu
        exact absurd hu (by decide)
      have hcp : (c == '%') = false := by simpa using hne
      cases fuel with
      | zero => simp at hf
      | succ f =>
        rw [List.singleton_append]
        simp only [unquoteGo, hcp, Bool.false_eq_true, if_false]
        have hlen : ((rest.map quoteChar).flatten).length ≤ f := by
          have := hf
          simp only [List.length_append, List.length_cons, List.length_nil,
            List.singleton_append] at this
          omega
        rw [ih hrest f hlen]
    · have hq : quoteChar c =
          ['%', upperHexDigit (c.toNat / 16 % 16), upperHexDigit (c.toNat % 16)] := by
        simp [quoteChar, hu]
      rw [hq] at hf ⊢
      have hlen : ((rest.map quoteChar).flatten).length + 3 ≤ fuel := by
        have := hf
        simp only [List.length_append, List.length_cons, List.length_nil] at this
        omega
      obtain ⟨f, rfl⟩ : ∃ f, fuel = f + 1 := ⟨fuel - 1, by omega⟩
      rw [List.cons_append, List.cons_append, List.cons_append, List.nil_append]
      simp only [unquoteGo]
      rw [if_pos (by decide)]
      have h1 := hexDigit_valid (c.toNat / 16 % 16) (Nat.mod_lt _ (by norm_num))
      have h2 := hexDigit_valid (c.toNat % 16) (Nat.mod_lt _ (by norm_num))
      rw [show (isHexDigitChar (upperHexDigit (c.toNat / 16 % 16)) &&
          isHexDigitChar (upperHexDigit (c.toNat % 16))) = true from by simp [h1, h2]]
      simp only [if_true]
      rw [hexDigit_decode c.toNat (by omega), Char.ofNat_toNat]
      rw [ih hrest f (by omega)]

theorem pyUnquote_pyQuote (s : String) (h : ∀ c ∈ s.data, c.toNat < 128) :
    pyUnquote (pyQuote s) = s := by
  rcases s with ⟨l⟩
  show String.mk
      (unquoteGo ((l.map quoteChar).flatten).length ((l.map quoteChar).flatten)) =
    String.mk l
  rw [unquoteGo_quote_list l h _ le_rfl]

end Otel

namespace Otel

/-- A tracer handle: which global tracer provider it came from (the
configured one set by `setup_tracing`, or the default) and its
instrumentation name.  `trace.get_tracer(__name__)` in `otel_setup.py`
yields the handle for the current global provider. -/
structure TracerT where
  fromConfigured : Bool
  name : String
deriving DecidableEq

/-- A meter handle, analogous to `TracerT`. -/
structure MeterT where
  fromConfigured : Bool
  name : String
deriving DecidableEq

/-- Instrument kinds created by `create_custom_metrics`. -/
inductive MetricKind where
  | counter
  | histogram
deriving DecidableEq

/-- One instrument of the metric registry: its exported metric name and
kind. -/
structure Instrument where
  name : String
  kind : MetricKind
deriving DecidableEq

/-- The module-level state of `otel_setup.py`: whether the global tracer
and meter providers have been configured (`trace.set_tracer_provider` /
`metrics.set_meter_provider`), and the three module globals `tracer`,
`meter`, `custom_metrics` declared at lines 346-349 (all `None`
initially). -/
structure OtelState where
  tracerProviderConfigured : Bool
  meterProviderConfigured : Bool
  g_tracer : Option TracerT
  g_meter : Option MeterT
  g_custom_metrics : Option (List (String × Instrument))
deriving DecidableEq

/-- The state at module import: providers unconfigured, all three
globals `None`. -/
def moduleInitState : OtelState :=
  ⟨false, false, none, none, none⟩

/-- `opentelemetry.trace.get_tracer(name)`: a handle from the current
global tracer provider. -/
def trace_get_tracer (st : OtelState) (n : String) : TracerT :=
  ⟨st.tracerProviderConfigured, n⟩

/-- `opentelemetry.metrics.get_meter(name)`: a handle from the current
global meter provider. -/
def metrics_get_meter (st : OtelState) (n : String) : MeterT :=
  ⟨st.meterProviderConfigured, n⟩

/-- `setup_tracing` (otel_setup.py lines 107-141): installs the
configured tracer provider globally and returns
`trace.get_tracer(__name__)`. -/
def setup_tracing (st : OtelState) : TracerT × OtelState :=
  let st2 := { st with tracerProviderConfigured := true }
  (trace_get_tracer st2 "otel_setup", st2)

/-- `setup_metrics` (otel_setup.py lines 143-189): installs the
configured meter provider globally and returns
`metrics.get_meter(__name__)`. -/
def setup_metrics (st : OtelState) : MeterT × OtelState :=
  let st2 := { st with meterProviderConfigured := true }
  (metrics_get_meter st2 "otel_setup", st2)

/-- `create_custom_metrics` (otel_setup.py lines 246-318): the fixed
registry of nine business instruments, keyed as in the returned dict. -/
def create_custom_metrics : List (String × Instrument) :=
  [("slack_events_counter", ⟨"aisdr_slack_events_total", .counter⟩),
   ("slack_slash_commands_counter", ⟨"aisdr_slash_commands_total", .counter⟩),
   ("openai_requests_counter", ⟨"aisdr_openai_requests_total", .counter⟩),
   ("openai_request_duration", ⟨"aisdr_openai_request_duration_seconds", .histogram⟩),
   ("slack_messages_counter", ⟨"aisdr_slack_messages_sent_total", .counter⟩),
   ("emails_generated_counter", ⟨"aisdr_emails_generated_total", .counter⟩),
   ("processing_errors_counter", ⟨"aisdr_processing_errors_total", .counter⟩),
   ("background_tasks_counter", ⟨"aisdr_background_tasks_total", .counter⟩),
   ("background_task_duration", ⟨"aisdr_background_task_duration_seconds", .histogram⟩)]

/-- `setup_observability` (otel_setup.py lines 320-344): runs the
tracing and metric pipelines and returns
`(tracer, meter, custom_metrics)`.  The logging setup and the
auto-instrumentation calls do not touch the modelled state.  Note that
the function returns its handles WITHOUT assigning the module globals
`tracer` / `meter` / `custom_metrics` of lines 346-349. -/
def setup_observability (st : OtelState) :
    (TracerT × MeterT × List (String × Instrument)) × OtelState :=
  let tr := setup_tracing st
  let mt := setup_metrics tr.2
  ((tr.1, mt.1, create_custom_metrics), mt.2)

/-- `get_tracer` (otel_setup.py lines 351-356): lazily caches
`trace.get_tracer(__name__)` in the module global. -/
def get_tracer (st : OtelState) : TracerT × OtelState :=
  match st.g_tracer with
  | some t => (t, st)
  | none =>
    let t := trace_get_tracer st "otel_setup"
    (t, { st with g_tracer := some t })

/-- `get_meter` (otel_setup.py lines 358-363): lazily caches
`metrics.get_meter(__name__)` in the module global. -/
def get_meter (st : OtelState) : MeterT × OtelState :=
  match st.g_meter with
  | some m => (m, st)
  | none =>
    let m := metrics_get_meter st "otel_setup"
    (m, { st with g_meter := some m })

/-- `get_custom_metrics` (otel_setup.py lines 365-370): lazily caches an
EMPTY dict in the module global when it is still `None`. -/
def get_custom_metrics (st : OtelState) : List (String × Instrument) × OtelState :=
  match st.g_custom_metrics with
  | some m => (m, st)
  | none => ([], { st with g_custom_metrics := some [] })

end Otel

namespace Otel

open Aisdr (truthy pySplit pyStripStr pyJoin)

/-- C4 (counterexample): the header set `get_otlp_headers` returns — and
which `setup_tracing` (otel_setup.py lines 130-133) hands verbatim to
the OTLP span exporter — holds the RAW/DECODED value, here
"Bearer my token" containing literal spaces; the percent-encoded form
"Bearer%20my%20token" is only written back into the
`OTEL_EXPORTER_OTLP_HEADERS` environment variable, so the claim that
the exporter receives the percent-encoded form is false. -/
theorem C4_counterexample :
    dictGet (get_otlp_headers
          ⟨.unset, some "Authorization=Bearer my token", none⟩ "Tracing").headers
        "Authorization" = some "Bearer my token" ∧
      pyQuote "Bearer my token" = "Bearer%20my%20token" ∧
      ("Bearer my token" : String) ≠ "Bearer%20my%20token" ∧
      (get_otlp_headers
          ⟨.unset, some "Authorization=Bearer my token", none⟩ "Tracing").envExposed =
        some "Authorization=Bearer%20my%20token" := by
  exact ⟨by decide, by decide, by decide, by decide⟩

/-- C4 (amended): for every `key=value` auth-header option, the value
stored in the header set handed to the exporters is the DECODED form
(percent-decoded when the raw option value contains a `%` marker,
otherwise taken verbatim); the percent-encoded form is instead
re-exposed through the bulk `OTEL_EXPORTER_OTLP_HEADERS` environment
variable as `key=quote(value)`, and percent-decoding that re-exposed
encoded value yields back the stored decoded value. -/
theorem C4_amended_header_encoding (jh : HeadersJsonEnv)
    (package ah k0 v0 : String) (vrest : List String)
    (hah : ah ≠ "") (hsplit : pySplit "=" ah = k0 :: v0 :: vrest)
    (hkey : authKey k0 ≠ "x-observe-target-package")
    (hascii : ∀ c ∈ (authValue v0 vrest).data, c.toNat < 128) :
    dictGet (get_otlp_headers ⟨jh, some ah, none⟩ package).headers (authKey k0) =
        some (authValue v0 vrest) ∧
      (get_otlp_headers ⟨jh, some ah, none⟩ package).envExposed =
        some (authKey k0 ++ "=" ++ pyQuote (authValue v0 vrest)) ∧
      pyUnquote (pyQuote (authValue v0 vrest)) = authValue v0 vrest := by
  have htr : (ah != "") = true := by simpa using hah
  have hnil := dictSet_ne_nil
    (match jh with
      | HeadersJsonEnv.unset => []
      | HeadersJsonEnv.invalid => []
      | HeadersJsonEnv.valid hs => dictUpdate [] hs)
    (authKey k0) (authValue v0 vrest)
  simp only [get_otlp_headers, htr, hsplit, if_true, hnil, if_false]
  refine ⟨?_, ?_, ?_⟩
  · rw [dictGet_dictSet_other _ _ _ _ hkey, dictGet_dictSet_self]
  · trivial
  · exact pyUnquote_pyQuote _ hascii

theorem C4_amended_header_encoding_witness :
    dictGet (get_otlp_headers
          ⟨.unset, some "Authorization=Bearer abc def", none⟩ "Metrics").headers
        (authKey "Authorization") = some (authValue "Bearer abc def" []) ∧
      (get_otlp_headers
          ⟨.unset, some "Authorization=Bearer abc def", none⟩ "Metrics").envExposed =
        some (authKey "Authorization" ++ "=" ++ pyQuote (authValue "Bearer abc def" [])) ∧
      pyUnquote (pyQuote (authValue "Bearer abc def" [])) =
        authValue "Bearer abc def" [] :=
  C4_amended_header_encoding .unset "Metrics" "Authorization=Bearer abc def"
    "Authorization" "Bearer abc def" [] (by decide) (by decide) (by decide) (by decide)

/-- C5: when only the `OBSERVE_INGEST_TOKEN` shortcut is set (non-empty)
the resolved header set is exactly the two pairs
Authorization = Bearer token and x-observe-target-package = family; and
when both the shortcut and a conflicting bulk-JSON Authorization value
are set, the shortcut wins and the override diagnostic is emitted. -/
theorem C5_ingest_token_resolution (tok pkg v : String) (ht : tok ≠ "")
    (hv : v ≠ "Bearer " ++ tok) :
    (get_otlp_headers ⟨.unset, none, some tok⟩ pkg).headers =
        [("Authorization", "Bearer " ++ tok), ("x-observe-target-package", pkg)] ∧
      dictGet (get_otlp_headers ⟨.valid [("Authorization", v)], none, some tok⟩ pkg).headers
          "Authorization" = some ("Bearer " ++ tok) ∧
      (get_otlp_headers
          ⟨.valid [("Authorization", v)], none, some tok⟩ pkg).overrideNote = true := by
  have htr : (tok != "") = true := by simpa using ht
  have hvb : (v != "Bearer " ++ tok) = true := by simpa using hv
  have hne : (("Authorization" : String) == "x-observe-target-package") = false := by decide
  refine ⟨?_, ?_, ?_⟩
  · simp [get_otlp_headers, htr, dictSet, dictGet, hne]
  · simp [get_otlp_headers, htr, dictSet, dictGet, dictUpdate, hne]
  · simp [get_otlp_headers, htr, dictSet, dictGet, dictUpdate, hne, hvb]

theorem C5_ingest_token_resolution_witness :
    (get_otlp_headers ⟨.unset, none, some "T"⟩ "Tracing").headers =
        [("Authorization", "Bearer " ++ "T"), ("x-observe-target-package", "Tracing")] ∧
      dictGet (get_otlp_headers
            ⟨.valid [("Authorization", "Bearer X")], none, some "T"⟩ "Tracing").headers
          "Authorization" = some ("Bearer " ++ "T") ∧
      (get_otlp_headers
          ⟨.valid [("Authorization", "Bearer X")], none, some "T"⟩
          "Tracing").overrideNote = true :=
  C5_ingest_token_resolution "T" "Tracing" "Bearer X" (by decide) (by decide)

/-- C8 (counterexample): `setup_observability` returns the nine-entry
metric registry built by `create_custom_metrics` but never assigns the
module global `custom_metrics`, so after bootstrap the accessor
`get_custom_metrics` lazily installs and returns the EMPTY dict — not
the registry that bootstrap produced. -/
theorem C8_counterexample :
    (get_custom_metrics (setup_observability moduleInitState).2).1 = [] ∧
      (setup_observability moduleInitState).1.2.2 = create_custom_metrics ∧
      create_custom_metrics ≠ [] ∧
      (get_custom_metrics (setup_observability moduleInitState).2).1 ≠
        (setup_observability moduleInitState).1.2.2 := by
  exact ⟨rfl, rfl, by decide, by decide⟩

/-- C8 (amended): before bootstrap the accessors return lazily created
defaults rather than failing (a tracer/meter from the unconfigured
default providers and an empty metric dict); after
`setup_observability` has run, `get_tracer` and `get_meter` return
handles from the now-configured global providers, equal to the handles
bootstrap returned, but `get_custom_metrics` returns the empty dict
rather than the metric registry bootstrap produced, because
`setup_observability` never assigns the cached module globals. -/
theorem C8_amended_accessors :
    (get_tracer moduleInitState).1 = ⟨false, "otel_setup"⟩ ∧
      (get_meter moduleInitState).1 = ⟨false, "otel_setup"⟩ ∧
      (get_custom_metrics moduleInitState).1 = [] ∧
      (get_tracer (setup_observability moduleInitState).2).1 =
        (setup_observability moduleInitState).1.1 ∧
      (get_meter (setup_observability moduleInitState).2).1 =
        (setup_observability moduleInitState).1.2.1 ∧
      (get_custom_metrics (setup_observability moduleInitState).2).1 = [] :=
  ⟨rfl, rfl, rfl, rfl, rfl, rfl⟩

end Otel
